import Mathlib

/-!
Verification of the apilyzer REST-API diagnostic tool (`apilyzer/verify.py`)
against its natural-language specification.

The Python source is shallowly embedded: the network is an explicit
environment mapping each requested URL to the outcome of the single GET that
httpx would perform for it, and every function that performs network calls
additionally returns the list of URLs it actually requested, in order, so
that statements about "which probes were issued" can be made.  Python
exceptions are modelled with `Except`; a function result of `Except.error`
means the corresponding Python call raises.
-/

set_option autoImplicit false

namespace Apilyzer

/-! ## Python string primitives used by the source -/

/-- Contiguous-sublist test on character lists, used to model the Python
substring operator `needle in hay`. -/
def subListOf : List Char → List Char → Bool
  | p, [] => p.isEmpty
  | p, c :: rest => p.isPrefixOf (c :: rest) || subListOf p rest

/-- Python `needle in hay` on strings (contiguous substring containment). -/
def pyIn (needle hay : String) : Bool :=
  subListOf needle.toList hay.toList

/-- Python `s.startswith(pre)`. -/
def pyStartswith (s pre : String) : Bool :=
  pre.toList.isPrefixOf s.toList

/-- Python `s.rstrip('/')`: remove all trailing `'/'` characters. -/
def rstripSlash (s : String) : String :=
  ⟨(s.toList.reverse.dropWhile (fun c => c == '/')).reverse⟩

/-- Python `s.lstrip('/')`: remove all leading `'/'` characters. -/
def lstripSlash (s : String) : String :=
  ⟨s.toList.dropWhile (fun c => c == '/')⟩

/-- Python `s.lower()` (ASCII case folding, as the source applies it to
response bodies). -/
def strLower (s : String) : String :=
  ⟨s.toList.map Char.toLower⟩

/-- Python `s.upper()` (ASCII case folding, applied to HTTP method names). -/
def strUpper (s : String) : String :=
  ⟨s.toList.map Char.toUpper⟩

/-- Python `str.replace(old, new)` on character lists: replace every
non-overlapping occurrence of `old`, scanning left to right.  Structural
recursion on a fuel argument (each step consumes at least one character
for the non-empty patterns the source uses, so `length + 1` fuel always
suffices). -/
def pyReplaceAux (old new : List Char) : Nat → List Char → List Char
  | 0, l => l
  | _, [] => []
  | fuel + 1, c :: rest =>
      if old.isPrefixOf (c :: rest) then
        new ++ pyReplaceAux old new fuel ((c :: rest).drop old.length)
      else
        c :: pyReplaceAux old new fuel rest

/-- Python `s.replace(old, new)` on strings. -/
def pyReplace (s old new : String) : String :=
  ⟨pyReplaceAux old.toList new.toList (s.toList.length + 1) s.toList⟩

/-! ## JSON values (results of Python json parsing) -/

/-- A parsed JSON document, as Python's `json` module would produce it
(`dict`s modelled as ordered association lists, matching the insertion
order that `next(iter(d.keys()))` in the source depends on; JSON object
keys are unique in any real parse result). -/
inductive JsonVal where
  | null
  | bool (b : Bool)
  | num (n : Int)
  | str (s : String)
  | arr (elems : List JsonVal)
  | obj (fields : List (String × JsonVal))

/-- Python truthiness of a parsed JSON value (`if actual_description:`). -/
def JsonVal.pyTruthy : JsonVal → Bool
  | .null => false
  | .bool b => b
  | .num n => n != 0
  | .str s => s != ""
  | .arr xs => !xs.isEmpty
  | .obj fs => !fs.isEmpty

/-- Python `isinstance(v, (list, dict))`. -/
def JsonVal.isListOrDict : JsonVal → Bool
  | .arr _ => true
  | .obj _ => true
  | _ => false

/-- Python `v == s` for a string literal `s`: true only when `v` is an equal
string (Python equality between a `str` and any other JSON-decoded type is
`False`). -/
def JsonVal.eqStr : JsonVal → String → Bool
  | .str s, t => s == t
  | _, _ => false

/-- Python `d.get(key, default)` on a decoded JSON object. -/
def objGet : List (String × JsonVal) → String → JsonVal → JsonVal
  | [], _, d => d
  | (k, v) :: rest, key, d => if k = key then v else objGet rest key d

/-- Python `key in d` on a decoded JSON object. -/
def objHasKey : List (String × JsonVal) → String → Bool
  | [], _ => false
  | (k, _) :: rest, key => if k = key then true else objHasKey rest key

/-! ## The httpx transport collaborator -/

/-- Transport-level failures the httpx client can raise from a GET.  In
httpx's exception hierarchy `ConnectError` (connection refused, DNS
failure) derives from `NetworkError`, while the timeout classes
(`ConnectTimeout`, `ReadTimeout`, ...) derive from `TimeoutException`; all
of them derive from `RequestError`, and only `ConnectError` matches an
`except httpx.ConnectError` clause. -/
inductive TransportError where
  | connectError
  | connectTimeout
  | readTimeout
  | otherRequestError
  deriving DecidableEq

/-- Whether the raised exception matches `except httpx.ConnectError`. -/
def TransportError.isConnectError : TransportError → Bool
  | .connectError => true
  | _ => false

/-- A Python exception escaping one of the embedded functions. -/
inductive PyExc where
  | transport (e : TransportError)
  | jsonDecode
  | attributeError
  deriving DecidableEq

/-- Modelled rendering of `str(e)` for a caught exception (the source
interpolates the exception object into error strings; no claim depends on
the exact text). -/
def excText : PyExc → String
  | .transport .connectError => "All connection attempts failed"
  | .transport .connectTimeout => "Connect timed out"
  | .transport .readTimeout => "Read timed out"
  | .transport .otherRequestError => "Request error"
  | .jsonDecode => "Expecting value: line 1 column 1 (char 0)"
  | .attributeError => "\x27NoneType\x27 object has no attribute \x27status_code\x27"

/-- The observable parts of an `httpx.Response`.  `json` is the result of
`response.json()`: `some v` when the body parses, `none` when that call
raises `json.JSONDecodeError`.  `url` is the final URL after redirects. -/
structure HttpResponse where
  statusCode : Nat
  contentType : String
  allow : String
  text : String
  json : Option JsonVal
  reasonPhrase : String
  url : String

/-- The network environment: the outcome of issuing one GET to a URL. -/
def Env := String → Except TransportError HttpResponse

/-! ## `_is_json_rest_api` (the REST Classifier) -/

def restVerbs : List String := ["GET", "POST", "PUT", "PATCH", "DELETE"]

/-- The `Allow`-header check at the end of `_is_json_rest_api`. -/
def allowCheck (r : HttpResponse) : Except PyExc (Bool × Option HttpResponse) :=
  if restVerbs.any (fun v => pyIn v r.allow) then .ok (true, some r)
  else .ok (false, some r)

/-- `_is_json_rest_api(uri)`: returns the list of URLs actually requested
(empty when the scheme pre-filter short-circuits) and the Python outcome:
`ok (is_rest, response)` for a normal return, `error` when the call
raises. -/
def isJsonRestApi (env : Env) (uri : String) :
    List String × Except PyExc (Bool × Option HttpResponse) :=
  if !(pyStartswith uri "http" || pyStartswith uri "https") then
    ([], .ok (false, none))
  else
    let url := rstripSlash uri
    match env url with
    | .error e =>
        if e.isConnectError then ([url], .ok (false, none))
        else ([url], .error (.transport e))
    | .ok r =>
        ([url],
          if r.statusCode / 100 ≠ 2 then .ok (false, some r)
          else if pyIn "application/json" r.contentType then
            match r.json with
            | none => .error .jsonDecode
            | some data =>
                if data.isListOrDict then .ok (true, some r)
                else allowCheck r
          else allowCheck r)

/-! ## `check_swagger_rest` (the Documentation Locator) -/

def apiTerms : List String :=
  ["swagger", "openapi", "endpoints", "paths", "documentation"]

def defaultEndpoints : List String :=
  ["openapi.json", "swagger.json", "docs", "api-docs", "swagger", "redoc",
   "api/docs", "swagger/ui", ""]

/-- Python `set.add` on the `_errors` collection, modelled as a deduplicating
list that keeps first-insertion order (the source returns `list(_errors)`,
whose enumeration order is unspecified; only membership matters). -/
def setAdd (s : List String) (x : String) : List String :=
  if x ∈ s then s else s ++ [x]

/-- The result dictionary of `check_swagger_rest`: its `status` key is the
constructor, `message` and the `response` payload are the arguments (the
`error` case carries `list(_errors)`). -/
inductive DocResult where
  | success (message : String) (payload : JsonVal)
  | warning (message : String)
  | error (message : String) (errors : List String)

def notSeemMsg (fullUrl : String) : String :=
  "The URL " ++ fullUrl ++ " does not seem to be a JSON REST API"

def clientErrMsg (r : HttpResponse) : String :=
  toString r.statusCode ++ " Client Error: " ++ r.reasonPhrase ++ " for url: " ++ r.url

def requestErrMsg (fullUrl : String) (e : PyExc) : String :=
  "An error occurred while requesting " ++ fullUrl ++ ": " ++ excText e

def foundMsg (fullUrl : String) : String :=
  "REST API JSON documentation found at " ++ fullUrl

def warningMsg (fullUrl : String) (docEndpointGiven : Bool) : String :=
  "Potential REST API documentation found at " ++ fullUrl ++ ", but not in JSON format"
    ++ (if docEndpointGiven then ""
        else " (Endpoint not specified, please provide the JSON documentation endpoint)")

def noDocMsg (docEndpointGiven : Bool) : String :=
  "No REST API documentation found"
    ++ (if docEndpointGiven then ""
        else " (Endpoint not specified, and we could not identify it with the base URL alone)")

/-- What one iteration of the candidate loop in `check_swagger_rest` does
with its candidate: either terminate the whole call with a result, or fall
through to the next candidate, possibly adding one error string. -/
inductive IterOutcome where
  | halt (r : DocResult)
  | next (newError : Option String)

/-- One iteration of the candidate loop of `check_swagger_rest`, for the
candidate URL `fullUrl`.  Exceptions raised inside the iteration (including
a `response.json()` decode failure while building the success result) are
caught by the `except Exception` clause and turned into a collected error. -/
def iterStep (env : Env) (docEndpointGiven : Bool) (fullUrl : String) : IterOutcome :=
  match (isJsonRestApi env fullUrl).2 with
  | .error e => .next (some (requestErrMsg fullUrl e))
  | .ok (false, _) => .next (some (notSeemMsg fullUrl))
  | .ok (true, none) => .next (some (requestErrMsg fullUrl .attributeError))
  | .ok (true, some r) =>
      if r.statusCode / 100 ≠ 2 then .next (some (clientErrMsg r))
      else if apiTerms.any (fun t => pyIn t (strLower r.text)) then
        if pyIn "application/json" r.contentType then
          match r.json with
          | none => .next (some (requestErrMsg fullUrl .jsonDecode))
          | some j => .halt (.success (foundMsg fullUrl) j)
        else .halt (.warning (warningMsg fullUrl docEndpointGiven))
      else .next none

/-- `some r` when the candidate terminates the loop with result `r`. -/
def iterHalt (env : Env) (docEndpointGiven : Bool) (fullUrl : String) : Option DocResult :=
  match iterStep env docEndpointGiven fullUrl with
  | .halt r => some r
  | .next _ => none

/-- The candidate loop of `check_swagger_rest`: `log` accumulates the URLs
requested so far, `errors` the collected error set. -/
def checkLoop (env : Env) (docEndpointGiven : Bool) (url : String) :
    List String → List String → List String → List String × DocResult
  | [], log, errors => (log, .error (noDocMsg docEndpointGiven) errors)
  | e :: rest, log, errors =>
      match iterStep env docEndpointGiven (url ++ "/" ++ e) with
      | .halt r => (log ++ (isJsonRestApi env (url ++ "/" ++ e)).1, r)
      | .next none =>
          checkLoop env docEndpointGiven url rest
            (log ++ (isJsonRestApi env (url ++ "/" ++ e)).1) errors
      | .next (some msg) =>
          checkLoop env docEndpointGiven url rest
            (log ++ (isJsonRestApi env (url ++ "/" ++ e)).1) (setAdd errors msg)

/-- `check_swagger_rest(uri, doc_endpoint)`: probes candidate endpoints and
classifies the outcome.  A falsy (`None` or empty) `doc_endpoint` keeps the
default candidate list; a truthy one, after `lstrip('/')`, becomes the sole
candidate (its truthiness is re-tested after stripping when messages are
built, exactly as the source does). -/
def checkSwaggerRest (env : Env) (uri : String) :
    Option String → List String × DocResult
  | some d =>
      if d ≠ "" then
        checkLoop env (lstripSlash d ≠ "") (rstripSlash uri) [lstripSlash d] [] []
      else checkLoop env false (rstripSlash uri) defaultEndpoints [] []
  | none => checkLoop env false (rstripSlash uri) defaultEndpoints [] []

/-! ## `_supports_https` (the HTTPS Support Checker) -/

def supportsMsg (uri : String) : String :=
  "✅ The URI supports HTTPS at " ++ uri

def noHttpsMsg (uri : String) : String :=
  "🚫 The URI does not support HTTPS at " ++ uri

def httpsClientErrMsg (r : HttpResponse) (httpsUri : String) : String :=
  toString r.statusCode ++ " Client Error: " ++ r.reasonPhrase ++ " for URL: " ++ httpsUri

def httpsRequestErrMsg (httpsUri : String) (e : TransportError) : String :=
  "An error occurred while requesting " ++ httpsUri ++ ": " ++ excText (.transport e)

/-- The result dictionary of `_supports_https`: `success` carries the
parsed body when the response is JSON and the raw text otherwise; `error`
carries `list(_errors)`. -/
inductive HttpsResult where
  | success (message : String) (response : JsonVal ⊕ String)
  | error (message : String) (errors : List String)

def HttpsResult.message : HttpsResult → String
  | .success m _ => m
  | .error m _ => m

/-- `_supports_https(uri)`: rewrites `http://` to `https://` (Python
`str.replace`, every occurrence) when the URI starts with `http://`, issues
one GET, and reports.  `except httpx.RequestError` catches every transport
failure, but a `response.json()` decode failure on a 2xx JSON-content-typed
response is uncaught and propagates. -/
def supportsHttps (env : Env) (uri : String) :
    List String × Except PyExc HttpsResult :=
  let httpsUri := if pyStartswith uri "http://" then pyReplace uri "http://" "https://" else uri
  match env httpsUri with
  | .error e =>
      ([httpsUri], .ok (.error (noHttpsMsg uri) [httpsRequestErrMsg httpsUri e]))
  | .ok r =>
      ([httpsUri],
        if r.statusCode / 100 = 2 then
          if pyIn "application/json" r.contentType then
            match r.json with
            | none => .error .jsonDecode
            | some j => .ok (.success (supportsMsg uri) (.inl j))
          else .ok (.success (supportsMsg uri) (.inr r.text))
        else .ok (.error (noHttpsMsg uri) [httpsClientErrMsg r httpsUri]))

/-! ## `_verify_maturity_paths` (the Maturity Scorer) -/

def validMethods : List String := ["get", "post", "put", "patch", "delete"]

/-- The per-method expected status/description table the source loops over. -/
def methodTable : List (String × String × String) :=
  [("post", "201", "Created"), ("put", "200", "OK"),
   ("patch", "200", "OK"), ("delete", "200", "OK")]

def nonConvMsg (path method : String) : String :=
  "🚫   Error! The " ++ path ++ " method uses a non-conventional " ++ strUpper method
    ++ " method. Consider following the standard RESTful methods for better maturity"

def passStatusMsg (path method : String) : String :=
  "✅   Congratulations! The " ++ path ++ " method returns the correct status code for "
    ++ strUpper method ++ " requests"

def warnDescMsg (method expectedDescription : String) : String :=
  "⚠️   Warning! Richardson\x27s maturity model recommends using \"" ++ expectedDescription
    ++ "\" as the description for " ++ strUpper method ++ " requests"

def passFullMsg (path method : String) : String :=
  "✅   Congratulations! The " ++ path
    ++ " method returns the correct status code and description for " ++ strUpper method
    ++ " requests. It aligns with Richardson\x27s maturity model."

/-- Python f-string rendering of the `actual_status` value (`None` prints as
`None`). -/
def optStr : Option String → String
  | none => "None"
  | some s => s

def wrongStatusMsg (path method expectedStatus : String) (actualStatus : Option String) : String :=
  "🚫   Error! The " ++ path ++ " method returns the wrong status code for "
    ++ strUpper method ++ " requests. Expected: " ++ expectedStatus ++ " but got: "
    ++ optStr actualStatus ++ ". It is at level 0 of Richardson\x27s maturity model."

def noRespMsg (path method : String) : String :=
  "🚫   Error! The " ++ path ++ " method does not provide any response status or description for "
    ++ strUpper method ++ " requests. It is at level 0 of Richardson\x27s maturity model."

def postOnlyMsg : String :=
  "🚫   Error! The API only has POST methods. It is at level 0 of Richardson\x27s maturity model."

def levelOneMsg : String :=
  "✅   Congratulations! The API has methods other than POST. It is at least at level 1 of Richardson\x27s maturity model."

/-- The message branching of the per-method loop body, once `responses`
(`rs`) and its entry under the expected status code (`entry`) have been
extracted: `actual_status` is the FIRST key of the `responses` mapping
(`next(iter(....keys()), None)`), and `actual_description` is the
description stored under the EXPECTED status code. -/
def methodVerdict (path method expectedStatus expectedDescription : String)
    (rs entry : List (String × JsonVal)) : List String :=
  if rs.head?.map Prod.fst = some expectedStatus then
    if !(objGet entry "description" (.str "")).eqStr expectedDescription then
      [passStatusMsg path method, warnDescMsg method expectedDescription]
    else [passFullMsg path method]
  else
    if (objGet entry "description" (.str "")).pyTruthy then
      [wrongStatusMsg path method expectedStatus (rs.head?.map Prod.fst)]
    else [noRespMsg path method]

/-- The body of the `for method, expected_status, expected_description`
loop for one method present on a path.  A non-`dict` on which `.get` or
`.keys()` is called raises `AttributeError`. -/
def methodEval (path method expectedStatus expectedDescription : String) :
    JsonVal → Except PyExc (List String)
  | .obj pm =>
      match objGet pm "responses" (.obj []) with
      | .obj rs =>
          match objGet rs expectedStatus (.obj []) with
          | .obj entry =>
              .ok (methodVerdict path method expectedStatus expectedDescription rs entry)
          | _ => .error .attributeError
      | _ => .error .attributeError
  | _ => .error .attributeError

/-- The per-path table loop of `_verify_maturity_paths`, threading the
`_has_only_post_method` flag. -/
def scoreMethods (path : String) (pi : List (String × JsonVal)) :
    List (String × String × String) → Bool → Except PyExc (List String × Bool)
  | [], hop => .ok ([], hop)
  | (method, expSt, expDesc) :: rest, hop =>
      if objHasKey pi method then
        match methodEval path method expSt expDesc (objGet pi method .null) with
        | .error e => .error e
        | .ok ms =>
            match scoreMethods path pi rest (if method ≠ "post" then false else hop) with
            | .error e => .error e
            | .ok (ms2, hop3) => .ok (ms ++ ms2, hop3)
      else scoreMethods path pi rest hop

/-- Processing of one `(path, path_info)` item: the non-conventional-method
pass over the keys, the `'get' in path_info` flag update, then the table
loop. -/
def pathMessages (path : String) :
    JsonVal → Bool → Except PyExc (List String × Bool)
  | .obj pi, hop =>
      match scoreMethods path pi methodTable (if objHasKey pi "get" then false else hop) with
      | .error e => .error e
      | .ok (ms, hop3) =>
          .ok ((pi.map Prod.fst).filterMap
                 (fun m => if m ∈ validMethods then none else some (nonConvMsg path m))
               ++ ms, hop3)
  | _, _ => .error .attributeError

/-- The `for path, path_info in paths.items()` loop. -/
def scorePaths : List (String × JsonVal) → Bool → Except PyExc (List String × Bool)
  | [], hop => .ok ([], hop)
  | (path, pinfo) :: rest, hop =>
      match pathMessages path pinfo hop with
      | .error e => .error e
      | .ok (ms, hop2) =>
          match scorePaths rest hop2 with
          | .error e => .error e
          | .ok (ms2, hop3) => .ok (ms ++ ms2, hop3)

/-- The feedback dictionary built by `_verify_maturity_paths`. -/
structure Feedback where
  messages : List String
  deriving DecidableEq

/-- `_verify_maturity_paths(paths)`: emits the per-path messages and then
unconditionally appends the aggregate maturity-level message.  A non-`dict`
argument raises `AttributeError` at `paths.items()`. -/
def verifyMaturityPaths : JsonVal → Except PyExc Feedback
  | .obj items =>
      match scorePaths items true with
      | .error e => .error e
      | .ok (msgs, hop) =>
          .ok ⟨msgs ++ [if hop then postOnlyMsg else levelOneMsg]⟩
  | _ => .error .attributeError

/-! ## `analyze_api_maturity` -/

/-- The result dictionary of `analyze_api_maturity`:
`docFailure` is the propagated error result of `check_swagger_rest`;
`notJson` the `json.JSONDecodeError` branch; `noPaths` the caught
`AttributeError` branch; `report` the final `{status, https, feedback}`
dictionary. -/
inductive AnalyzeResult where
  | docFailure (message : String) (errors : List String)
  | notJson (message : String)
  | noPaths (message : String)
  | report (status : String) (https : String) (feedback : Feedback)
  deriving DecidableEq

def notJsonMsg (uri : String) : String :=
  "The API is documented, but the documentation is not valid JSON. Please check the documentation at " ++ uri

def noPathsMsg : String :=
  "The API is documented, but no paths were found"

/-- From the extracted `paths` value onwards: run the scorer, then the
HTTPS check, then assemble the report; `status` is `'success'` exactly when
the feedback message list is truthy (non-empty). -/
def analyzeStage4 (env : Env) (uri : String) (log1 : List String) (paths : JsonVal) :
    List String × Except PyExc AnalyzeResult :=
  match verifyMaturityPaths paths with
  | .error e => (log1, .error e)
  | .ok fb =>
      match supportsHttps env uri with
      | (log2, .error e) => (log1 ++ log2, .error e)
      | (log2, .ok hr) =>
          (log1 ++ log2,
            .ok (.report (if fb.messages.isEmpty then "error" else "success") hr.message fb))

/-- The `paths = response.get('paths', {})` step: only a mapping has
`.get`; anything else (including the `None` payload a warning outcome
carries) raises `AttributeError`, caught and reported as `noPaths`. -/
def analyzeStage3 (env : Env) (uri : String) (log1 : List String) :
    Option JsonVal → List String × Except PyExc AnalyzeResult
  | some (.obj fields) => analyzeStage4 env uri log1 (objGet fields "paths" (.obj []))
  | _ => (log1, .ok (.noPaths noPathsMsg))

/-- The `isinstance(response, str)` / `json.loads` step.  `jsonLoads`
abstracts Python's `json.loads`: `none` models a raised
`json.JSONDecodeError`. -/
def analyzeStage2 (env : Env) (jsonLoads : String → Option JsonVal) (uri : String)
    (log1 : List String) : Option JsonVal → List String × Except PyExc AnalyzeResult
  | some (.str s) =>
      match jsonLoads s with
      | some v => analyzeStage3 env uri log1 (some v)
      | none => (log1, .ok (.notJson (notJsonMsg uri)))
  | r => analyzeStage3 env uri log1 r

/-- `analyze_api_maturity(uri)`: locate documentation (default candidate
list), bail out on an error outcome, then analyze the payload (a warning
outcome carries payload `None`). -/
def analyzeApiMaturity (env : Env) (jsonLoads : String → Option JsonVal) (uri : String) :
    List String × Except PyExc AnalyzeResult :=
  match checkSwaggerRest env uri none with
  | (log1, .error m errs) => (log1, .ok (.docFailure m errs))
  | (log1, .success _ payload) => analyzeStage2 env jsonLoads uri log1 (some payload)
  | (log1, .warning _) => analyzeStage2 env jsonLoads uri log1 none

/-- The full candidate URL the locator builds for a suffix. -/
def fullUrlOf (uri suffix : String) : String :=
  rstripSlash uri ++ "/" ++ suffix

/-! ## Concrete fixtures used by witnesses and counterexamples -/

/-- A 404 response, as a server with no documentation would return for any
candidate URL. -/
def resp404 (u : String) : HttpResponse :=
  { statusCode := 404, contentType := "", allow := "", text := "",
    json := none, reasonPhrase := "Not Found", url := u }

/-- A server answering 404 everywhere. -/
def env404 : Env := fun u => .ok (resp404 u)

def docsJson : JsonVal := .obj [("paths", .obj [])]

/-- A JSON documentation response served at `http://b/docs`. -/
def docsResp : HttpResponse :=
  { statusCode := 200, contentType := "application/json", allow := "",
    text := "\x7b\"paths\": \x7b\x7d\x7d", json := some docsJson,
    reasonPhrase := "OK", url := "http://b/docs" }

/-- A server whose documentation lives at the third candidate, `docs`. -/
def env3 : Env := fun u => if u = "http://b/docs" then .ok docsResp else .ok (resp404 u)

def openapiJson : JsonVal := .obj [("openapi", .str "3.0")]

/-- A valid JSON documentation payload whose top-level mapping has no
`paths` key, served at `http://x/openapi.json`. -/
def openapiResp : HttpResponse :=
  { statusCode := 200, contentType := "application/json", allow := "",
    text := "\x7b\"openapi\": \"3.0\"\x7d", json := some openapiJson,
    reasonPhrase := "OK", url := "http://x/openapi.json" }

/-- A server serving only that payload; everything else (including the
HTTPS probe) fails to connect. -/
def env6 : Env := fun u => if u = "http://x/openapi.json" then .ok openapiResp else .error .connectError

/-- A `json.loads` stand-in that is never consulted by the scenarios here. -/
def loads0 : String → Option JsonVal := fun _ => none

/-- A server on which every GET times out while reading. -/
def envT : Env := fun _ => .error .readTimeout

/-- A 2xx response that advertises JSON but whose body does not parse. -/
def badJsonResp : HttpResponse :=
  { statusCode := 200, contentType := "application/json", allow := "",
    text := "hello", json := none, reasonPhrase := "OK", url := "https://j" }

def envBad : Env := fun _ => .ok badJsonResp

/-- A server refusing every connection. -/
def envW : Env := fun _ => .error .connectError

/-! ## Message-count accounting for the Maturity Scorer -/

/-- Lower bound on the number of per-method messages one path contributes:
one per unconventional method key, at least one per table method
(post/put/patch/delete) present; `get` contributes none. -/
def methodMsgCount (pi : List (String × JsonVal)) : Nat :=
  ((pi.map Prod.fst).filter (fun m => decide (m ∉ validMethods))).length
    + (methodTable.filter (fun t => objHasKey pi t.1)).length

def jsonMsgCount : JsonVal → Nat
  | .obj pi => methodMsgCount pi
  | _ => 0

def pathsMsgCount : List (String × JsonVal) → Nat
  | [] => 0
  | (_, v) :: rest => jsonMsgCount v + pathsMsgCount rest

lemma methodVerdict_len (path method expSt expDesc : String)
    (rs entry : List (String × JsonVal)) :
    1 ≤ (methodVerdict path method expSt expDesc rs entry).length := by
  unfold methodVerdict
  split <;> split <;> simp

lemma methodEval_ok_len (path method expSt expDesc : String) (v : JsonVal)
    (ms : List String) (h : methodEval path method expSt expDesc v = .ok ms) :
    1 ≤ ms.length := by
  unfold methodEval at h
  repeat split at h
  all_goals cases h
  exact methodVerdict_len _ _ _ _ _ _

lemma scoreMethods_ok_len (path : String) (pi : List (String × JsonVal)) :
    ∀ (table : List (String × String × String)) (hop : Bool)
      (ms : List String) (hop2 : Bool),
    scoreMethods path pi table hop = .ok (ms, hop2) →
    (table.filter (fun t => objHasKey pi t.1)).length ≤ ms.length := by
  intro table
  induction table with
  | nil =>
      intro hop ms hop2 h
      cases h
      simp
  | cons t rest ih =>
      intro hop ms hop2 h
      obtain ⟨method, expSt, expDesc⟩ := t
      unfold scoreMethods at h
      by_cases hk : objHasKey pi method = true
      · rw [if_pos hk] at h
        split at h
        · exact Except.noConfusion h
        · rename_i ms1 hme
          split at h
          · exact Except.noConfusion h
          · rename_i ms2 hop3 hrec
            injection h with h2
            injection h2 with hms hhop
            subst hms
            have h1 := methodEval_ok_len _ _ _ _ _ _ hme
            have h3 := ih _ _ _ hrec
            simp only [List.filter_cons, hk, if_true, List.length_cons,
              List.length_append]
            omega
      · rw [if_neg hk] at h
        have h2 := ih _ _ _ h
        have hk2 : objHasKey pi method = false := by
          cases hkk : objHasKey pi method
          · rfl
          · exact absurd hkk hk
        simpa [List.filter_cons, hk2] using h2

lemma filterMap_nonConv_len (path : String) (keys : List String) :
    (keys.filterMap
        (fun m => if m ∈ validMethods then none else some (nonConvMsg path m))).length
      = (keys.filter (fun m => decide (m ∉ validMethods))).length := by
  induction keys with
  | nil => rfl
  | cons k rest ih =>
      by_cases hk : k ∈ validMethods
      · simp [List.filterMap_cons, List.filter_cons, hk, ih]
      · simp [List.filterMap_cons, List.filter_cons, hk, ih]

lemma pathMessages_ok_len (path : String) (pinfo : JsonVal) (hop : Bool)
    (ms : List String) (hop2 : Bool)
    (h : pathMessages path pinfo hop = .ok (ms, hop2)) :
    jsonMsgCount pinfo ≤ ms.length := by
  cases pinfo with
  | obj pi =>
      simp only [pathMessages] at h
      split at h
      · exact Except.noConfusion h
      · rename_i ms1 hop3 hsm
        injection h with h2
        injection h2 with hms hhop
        subst hms
        have h1 := scoreMethods_ok_len path pi methodTable _ _ _ hsm
        simp only [jsonMsgCount, methodMsgCount, List.length_append,
          filterMap_nonConv_len]
        omega
  | null => cases h
  | bool b => cases h
  | num n => cases h
  | str s => cases h
  | arr xs => cases h

lemma scorePaths_ok_len :
    ∀ (entries : List (String × JsonVal)) (hop : Bool)
      (ms : List String) (hop2 : Bool),
    scorePaths entries hop = .ok (ms, hop2) →
    pathsMsgCount entries ≤ ms.length := by
  intro entries
  induction entries with
  | nil =>
      intro hop ms hop2 h
      cases h
      simp [pathsMsgCount]
  | cons p rest ih =>
      intro hop ms hop2 h
      obtain ⟨path, pinfo⟩ := p
      unfold scorePaths at h
      split at h
      · exact Except.noConfusion h
      · rename_i ms1 hopA hpm
        split at h
        · exact Except.noConfusion h
        · rename_i ms2 hopB hrec
          injection h with h2
          injection h2 with hms hhop
          subst hms
          have h1 := pathMessages_ok_len _ _ _ _ _ hpm
          have h3 := ih _ _ _ hrec
          simp only [pathsMsgCount, List.length_append]
          omega

/-- Shape of any scorer result: the per-path messages followed by exactly
one aggregate maturity-level message. -/
lemma verify_ok_shape (paths : JsonVal) (fb : Feedback)
    (h : verifyMaturityPaths paths = .ok fb) :
    ∃ body agg, fb.messages = body ++ [agg]
      ∧ (agg = postOnlyMsg ∨ agg = levelOneMsg)
      ∧ (∀ entries, paths = .obj entries → pathsMsgCount entries ≤ body.length) := by
  cases paths with
  | obj items =>
      simp only [verifyMaturityPaths] at h
      split at h
      · exact Except.noConfusion h
      · rename_i msgs hop hsp
        injection h with h2
        subst h2
        refine ⟨msgs, _, rfl, ?_, ?_⟩
        · cases hop
          · right; rfl
          · left; rfl
        · intro entries he
          cases he
          exact scorePaths_ok_len _ _ _ _ hsp
  | null => cases h
  | bool b => cases h
  | num n => cases h
  | str s => cases h
  | arr xs => cases h

lemma verify_ok_messages_ne (paths : JsonVal) (fb : Feedback)
    (h : verifyMaturityPaths paths = .ok fb) : fb.messages ≠ [] := by
  obtain ⟨body, agg, hb, _, _⟩ := verify_ok_shape paths fb h
  rw [hb]
  simp

/-! ## Claim C1 -/

/-- The C1 counterexample input: a POST whose `responses` mapping declares
`201` with description `Created`, but lists a `200` entry first. -/
def c1paths : JsonVal :=
  .obj [("/pets", .obj [("post", .obj [("responses",
    .obj [("200", .obj []), ("201", .obj [("description", .str "Created")])])])])]

/-- C1 (counterexample): the expected status `201` IS present among the
POST responses with exactly the expected description `Created`, yet the
scorer emits a wrong-status-code fail message and no pass message, because
it compares only the first declared response key (`200`). -/
theorem c1_counterexample :
    verifyMaturityPaths c1paths =
      .ok ⟨[wrongStatusMsg "/pets" "post" "201" (some "200"), postOnlyMsg]⟩
    ∧ passStatusMsg "/pets" "post"
        ∉ [wrongStatusMsg "/pets" "post" "201" (some "200"), postOnlyMsg]
    ∧ passFullMsg "/pets" "post"
        ∉ [wrongStatusMsg "/pets" "post" "201" (some "200"), postOnlyMsg] :=
  ⟨rfl, by decide, by decide⟩

/-- C1 (amended): for each method of the expected-status table
(post/put/patch/delete), the scorer's outcome is decided by the FIRST
declared response key, not by membership of the expected status code: first
key equal to the expected status and matching description under the
expected status ⇒ pass; first key equal but description differing ⇒ pass
plus warning; first key different (even when the expected status appears
later among the responses) ⇒ fail, with the wrong-status variant when the
description under the expected status is truthy and the no-response variant
otherwise. -/
theorem c1_theorem (path method expectedStatus expectedDescription : String)
    (_hmem : (method, expectedStatus, expectedDescription) ∈ methodTable)
    (rs entry : List (String × JsonVal))
    (hentry : objGet rs expectedStatus (.obj []) = .obj entry) :
    methodEval path method expectedStatus expectedDescription
        (.obj [("responses", .obj rs)]) =
      .ok (if rs.head?.map Prod.fst = some expectedStatus then
             if !(objGet entry "description" (.str "")).eqStr expectedDescription then
               [passStatusMsg path method, warnDescMsg method expectedDescription]
             else [passFullMsg path method]
           else
             if (objGet entry "description" (.str "")).pyTruthy then
               [wrongStatusMsg path method expectedStatus (rs.head?.map Prod.fst)]
             else [noRespMsg path method]) := by
  have h1 : objGet [("responses", JsonVal.obj rs)] "responses" (.obj []) = .obj rs := by
    simp [objGet]
  simp only [methodEval, h1, hentry, methodVerdict]

/-- C1 (witness): the amended theorem applied to the counterexample input,
where the first response key `200` differs from the expected `201`. -/
theorem c1_witness :
    methodEval "/pets" "post" "201" "Created"
        (.obj [("responses",
          .obj [("200", .obj []), ("201", .obj [("description", .str "Created")])])]) =
      .ok [wrongStatusMsg "/pets" "post" "201" (some "200")] :=
  c1_theorem "/pets" "post" "201" "Created" (List.Mem.head _)
    [("200", .obj []), ("201", .obj [("description", .str "Created")])]
    [("description", .str "Created")] rfl

/-! ## Claim C2 -/

/-- The C2 counterexample input: one path whose only method is a GET
declaring a `200`/`OK` response. -/
def c2paths : JsonVal :=
  .obj [("/pets", .obj [("get", .obj [("responses",
    .obj [("200", .obj [("description", .str "OK")])])])])]

/-- C2 (counterexample): the `(path, method)` pair `("/pets", get)` yields
NO message at all — the scorer's output for this non-empty paths mapping is
just the single aggregate message, with no pass message for GET. -/
theorem c2_counterexample :
    verifyMaturityPaths c2paths = .ok ⟨[levelOneMsg]⟩
    ∧ ([levelOneMsg] : List String).length = 1 :=
  ⟨rfl, rfl⟩

/-- C2 (amended): whenever the scorer returns normally, its message list is
a body followed by exactly one trailing aggregate maturity-level message,
and the body has at least one message per (path, method) pair whose method
is NOT `get`: one per unconventional method key and at least one per
post/put/patch/delete present (`get` methods contribute no message). -/
theorem c2_theorem (entries : List (String × JsonVal)) (fb : Feedback)
    (h : verifyMaturityPaths (.obj entries) = .ok fb) :
    ∃ body agg, fb.messages = body ++ [agg]
      ∧ (agg = postOnlyMsg ∨ agg = levelOneMsg)
      ∧ pathsMsgCount entries ≤ body.length := by
  obtain ⟨body, agg, hb, ha, hc⟩ := verify_ok_shape _ _ h
  exact ⟨body, agg, hb, ha, hc entries rfl⟩

/-- C2 (witness): the amended theorem at a concrete paths mapping with a
GET (no message), a POST (two messages) and an unconventional HEAD method
(one message). -/
theorem c2_witness :
    ∃ body agg,
      (Feedback.mk [nonConvMsg "/pets" "head",
        passStatusMsg "/pets" "post", warnDescMsg "post" "Created",
        levelOneMsg]).messages = body ++ [agg]
      ∧ (agg = postOnlyMsg ∨ agg = levelOneMsg)
      ∧ pathsMsgCount [("/pets", JsonVal.obj
          [("get", .obj [("responses", .obj [("200", .obj [("description", .str "OK")])])]),
           ("head", .obj []),
           ("post", .obj [("responses", .obj [("201", .obj [("description", .str "Wrong")])])])])]
          ≤ body.length :=
  c2_theorem
    [("/pets", JsonVal.obj
      [("get", .obj [("responses", .obj [("200", .obj [("description", .str "OK")])])]),
       ("head", .obj []),
       ("post", .obj [("responses", .obj [("201", .obj [("description", .str "Wrong")])])])])]
    ⟨[nonConvMsg "/pets" "head",
      passStatusMsg "/pets" "post", warnDescMsg "post" "Created",
      levelOneMsg]⟩ rfl

/-! ## Claim C9 -/

/-- `analyzeStage4` can only build a report with status `success`. -/
lemma stage4_report_success (env : Env) (uri : String) (log1 : List String)
    (paths : JsonVal) (log : List String) (s hm : String) (fb : Feedback)
    (h : analyzeStage4 env uri log1 paths = (log, .ok (.report s hm fb))) :
    s = "success" := by
  unfold analyzeStage4 at h
  split at h
  · rename_i e hv
    injection h with hl hr
    exact Except.noConfusion hr
  · rename_i fb2 hv
    split at h
    · rename_i log2 e hs
      injection h with hl hr
      exact Except.noConfusion hr
    · rename_i log2 hr2 hs
      injection h with hl hr
      injection hr with hr
      injection hr with hs2 hh2 hf2
      have hne := verify_ok_messages_ne _ _ hv
      rw [← hs2]
      have : fb2.messages.isEmpty = false := by
        cases hm2 : fb2.messages
        · exact absurd hm2 hne
        · rfl
      simp [this]

lemma stage3_report_success (env : Env) (uri : String) (log1 : List String)
    (respOpt : Option JsonVal) (log : List String) (s hm : String) (fb : Feedback)
    (h : analyzeStage3 env uri log1 respOpt = (log, .ok (.report s hm fb))) :
    s = "success" := by
  match respOpt with
  | some (.obj fields) =>
      exact stage4_report_success env uri log1 _ log s hm fb h
  | none | some .null | some (.bool _) | some (.num _) | some (.str _) | some (.arr _) =>
      simp only [analyzeStage3] at h
      injection h with hl hr
      injection hr with hr
      exact AnalyzeResult.noConfusion hr

lemma stage2_report_success (env : Env) (jsonLoads : String → Option JsonVal)
    (uri : String) (log1 : List String) (respOpt : Option JsonVal)
    (log : List String) (s hm : String) (fb : Feedback)
    (h : analyzeStage2 env jsonLoads uri log1 respOpt = (log, .ok (.report s hm fb))) :
    s = "success" := by
  match respOpt with
  | some (.str str0) =>
      simp only [analyzeStage2] at h
      split at h
      · rename_i v hj
        exact stage3_report_success env uri log1 _ log s hm fb h
      · rename_i hj
        injection h with hl hr
        injection hr with hr
        exact AnalyzeResult.noConfusion hr
  | none | some .null | some (.bool _) | some (.num _) | some (.obj _) | some (.arr _) =>
      simp only [analyzeStage2] at h
      exact stage3_report_success env uri log1 _ log s hm fb h

/-- C9: the Maturity Scorer always appends the aggregate maturity-level
message, so a normally returned feedback has a non-empty message list; and
whenever `analyze_api_maturity` returns the assembled
`{status, https, feedback}` report, its status is `success` — the `error`
branch of the status assignment is unreachable. -/
theorem c9_theorem :
    (∀ (paths : JsonVal) (fb : Feedback),
      verifyMaturityPaths paths = .ok fb → fb.messages ≠ [])
    ∧ (∀ (env : Env) (jsonLoads : String → Option JsonVal) (uri : String)
        (log : List String) (s hm : String) (fb : Feedback),
        analyzeApiMaturity env jsonLoads uri = (log, .ok (.report s hm fb)) →
        s = "success") := by
  constructor
  · exact verify_ok_messages_ne
  · intro env jsonLoads uri log s hm fb h
    unfold analyzeApiMaturity at h
    split at h
    · rename_i log1 m errs hdoc
      injection h with hl hr
      injection hr with hr
      exact AnalyzeResult.noConfusion hr
    · rename_i log1 m payload hdoc
      exact stage2_report_success env jsonLoads uri log1 _ log s hm fb h
    · rename_i log1 m hdoc
      exact stage2_report_success env jsonLoads uri log1 _ log s hm fb h

/-- C9 (witness): the scorer on the EMPTY paths mapping still yields a
non-empty message list, and the analysis of a discovered documentation
payload reports status `success`. -/
theorem c9_witness :
    ([postOnlyMsg] ≠ ([] : List String)) ∧ "success" = "success" :=
  ⟨c9_theorem.1 (.obj []) ⟨[postOnlyMsg]⟩ rfl,
   c9_theorem.2 env6 loads0 "http://x" ["http://x/openapi.json", "https://x"]
     "success" (noHttpsMsg "http://x") ⟨[postOnlyMsg]⟩ rfl⟩

/-! ## Claim C5 -/

/-- C5 (counterexample): a read timeout — a transport failure — during the
classifier's GET is NOT caught: `_is_json_rest_api` raises instead of
returning `(False, None)`. -/
theorem c5_counterexample :
    (isJsonRestApi envT "http://t").2 = .error (.transport .readTimeout) := rfl

/-- C5 (amended): only `httpx.ConnectError` (connection refused, DNS
failure) is caught inside the classifier and converted to
`(NOT_REST, None)`; any other transport failure of the GET — timeouts
included — propagates to the caller as a raised exception. -/
theorem c5_theorem (env : Env) (uri : String) (e : TransportError)
    (hscheme : pyStartswith uri "http" = true)
    (henv : env (rstripSlash uri) = .error e) :
    isJsonRestApi env uri =
      ([rstripSlash uri],
       if e.isConnectError then .ok (false, none) else .error (.transport e)) := by
  unfold isJsonRestApi
  rw [hscheme]
  simp only [Bool.true_or, Bool.not_true, Bool.false_eq_true, if_false]
  rw [henv]
  cases e <;> rfl

/-- C5 (witness): the amended theorem at the timing-out server, where the
GET was issued and the timeout propagates. -/
theorem c5_witness :
    isJsonRestApi envT "http://t" =
      (["http://t"],
       if TransportError.readTimeout.isConnectError then .ok (false, none)
       else .error (.transport .readTimeout)) :=
  c5_theorem envT "http://t" .readTimeout rfl rfl

/-! ## Claim C7 -/

/-- C7 (counterexample): a 2xx response whose `Content-Type` advertises
JSON but whose body does not parse makes `_supports_https` raise
`json.JSONDecodeError` instead of returning a result. -/
theorem c7_counterexample :
    (supportsHttps envBad "https://j").2 = .error .jsonDecode := rfl

/-- C7 (amended): the HTTPS checker returns a `success` result with the
parsed body (or raw text) on any 2xx response and an `error` result
carrying the captured status/reason or transport exception text otherwise —
EXCEPT that a 2xx response whose content type includes `application/json`
but whose body fails to parse raises the JSON decode error to the caller. -/
theorem c7_theorem (env : Env) (uri httpsUri : String)
    (hh : httpsUri =
      if pyStartswith uri "http://" then pyReplace uri "http://" "https://" else uri) :
    (∀ e, env httpsUri = .error e →
      (supportsHttps env uri).2 =
        .ok (.error (noHttpsMsg uri) [httpsRequestErrMsg httpsUri e]))
    ∧ (∀ r, env httpsUri = .ok r → r.statusCode / 100 ≠ 2 →
      (supportsHttps env uri).2 =
        .ok (.error (noHttpsMsg uri) [httpsClientErrMsg r httpsUri]))
    ∧ (∀ r j, env httpsUri = .ok r → r.statusCode / 100 = 2 →
      pyIn "application/json" r.contentType = true → r.json = some j →
      (supportsHttps env uri).2 = .ok (.success (supportsMsg uri) (.inl j)))
    ∧ (∀ r, env httpsUri = .ok r → r.statusCode / 100 = 2 →
      pyIn "application/json" r.contentType = false →
      (supportsHttps env uri).2 = .ok (.success (supportsMsg uri) (.inr r.text)))
    ∧ (∀ r, env httpsUri = .ok r → r.statusCode / 100 = 2 →
      pyIn "application/json" r.contentType = true → r.json = none →
      (supportsHttps env uri).2 = .error .jsonDecode) := by
  subst hh
  refine ⟨?_, ?_, ?_, ?_, ?_⟩
  · intro e he
    simp only [supportsHttps, he]
  · intro r he h2
    simp only [supportsHttps, he, if_neg h2]
  · intro r j he h2 hct hj
    simp only [supportsHttps, he, if_pos h2, hct, if_true, hj]
  · intro r he h2 hct
    simp only [supportsHttps, he, if_pos h2, hct, Bool.false_eq_true, if_false]
  · intro r he h2 hct hj
    simp only [supportsHttps, he, if_pos h2, hct, if_true, hj]

/-- C7 (witness): the amended theorem at the malformed-JSON 2xx server
(the raising case) and at the timing-out server (the caught transport
case). -/
theorem c7_witness :
    (supportsHttps envBad "https://j").2 = Except.error PyExc.jsonDecode
    ∧ (supportsHttps envT "https://j").2 =
        .ok (.error (noHttpsMsg "https://j")
          [httpsRequestErrMsg "https://j" .readTimeout]) :=
  ⟨(c7_theorem envBad "https://j" "https://j" rfl).2.2.2.2 badJsonResp rfl rfl rfl rfl,
   (c7_theorem envT "https://j" "https://j" rfl).1 .readTimeout rfl⟩

/-! ## Claim C8 -/

/-- Any string with `https` as a prefix also has `http` as a prefix, so the
second disjunct of the scheme pre-filter is redundant. -/
lemma startsHttps_imp (s : String) (h : pyStartswith s "https" = true) :
    pyStartswith s "http" = true := by
  unfold pyStartswith at h ⊢
  have e1 : "https".toList = ['h', 't', 't', 'p', 's'] := rfl
  have e2 : "http".toList = ['h', 't', 't', 'p'] := rfl
  rw [e1] at h
  rw [e2]
  rcases hl : s.toList with _ | ⟨c1, _ | ⟨c2, _ | ⟨c3, _ | ⟨c4, l5⟩⟩⟩⟩ <;>
    rw [hl] at h <;> simp_all [List.isPrefixOf]
  exact ⟨h.1, h.2.1, h.2.2.1, h.2.2.2.1⟩

/-- C8 (counterexample): `"httpfoo"` begins with neither `http://` nor
`https://`, yet the classifier issues a network call to it and returns the
404 response it gets, rather than `(NOT_REST, None)` with no call. -/
theorem c8_counterexample :
    isJsonRestApi env404 "httpfoo" = (["httpfoo"], .ok (false, some (resp404 "httpfoo")))
    ∧ pyStartswith "httpfoo" "http://" = false
    ∧ pyStartswith "httpfoo" "https://" = false :=
  ⟨rfl, rfl, rfl⟩

/-- C8 (amended): the pre-filter tests only the literal prefix `http` (its
`https` disjunct is redundant): a URL not starting with `http`
short-circuits to `(NOT_REST, None)` with no network call, while ANY URL
starting with `http` — even one with no valid scheme — is requested. -/
theorem c8_theorem (env : Env) (uri : String) :
    (pyStartswith uri "http" = false →
      isJsonRestApi env uri = ([], .ok (false, none)))
    ∧ (pyStartswith uri "http" = true →
      (isJsonRestApi env uri).1 = [rstripSlash uri]) := by
  constructor
  · intro h
    have h2 : pyStartswith uri "https" = false := by
      cases hh : pyStartswith uri "https"
      · rfl
      · rw [startsHttps_imp uri hh] at h
        exact absurd h (by simp)
    unfold isJsonRestApi
    rw [h, h2]
    rfl
  · intro h
    unfold isJsonRestApi
    rw [h]
    simp only [Bool.true_or, Bool.not_true, Bool.false_eq_true, if_false]
    cases henv : env (rstripSlash uri) with
    | error e => cases e <;> simp [TransportError.isConnectError]
    | ok r => rfl

/-- C8 (witness): the amended theorem at a non-`http` URL (no probe) and at
the malformed `"httpfoo"` URL (one probe issued). -/
theorem c8_witness :
    isJsonRestApi envW "ftp://x" = ([], .ok (false, none))
    ∧ (isJsonRestApi env404 "httpfoo").1 = ["httpfoo"] :=
  ⟨(c8_theorem envW "ftp://x").1 rfl, (c8_theorem env404 "httpfoo").2 rfl⟩

/-! ## Claim C10 -/

/-- C10: when the URI starts with `http://`, the HTTPS checker's single
probe goes to `uri.replace('http://', 'https://')` — Python `replace`
rewrites EVERY occurrence of the substring, not only the leading scheme. -/
theorem c10_theorem (env : Env) (uri : String)
    (h : pyStartswith uri "http://" = true) :
    (supportsHttps env uri).1 = [pyReplace uri "http://" "https://"] := by
  unfold supportsHttps
  rw [h]
  simp only [if_true]
  cases henv : env (pyReplace uri "http://" "https://") with
  | error e => rfl
  | ok r => rfl

/-- C10 (witness): a URI containing `http://` twice — once as the scheme
and once inside a query parameter — is probed with BOTH occurrences
rewritten to `https://`. -/
theorem c10_witness :
    (supportsHttps envW "http://a?u=http://b").1 = ["https://a?u=https://b"] :=
  c10_theorem envW "http://a?u=http://b" rfl

/-! ## Claim C3 -/

/-- The candidate loop body terminates only with a success or a warning
result. -/
lemma iterStep_halt_kind (env : Env) (g : Bool) (u : String) (res : DocResult)
    (h : iterStep env g u = .halt res) :
    (∃ m p, res = .success m p) ∨ (∃ m, res = .warning m) := by
  unfold iterStep at h
  repeat' split at h
  all_goals first
    | exact IterOutcome.noConfusion h
    | (injection h with h2
       subst h2
       first
         | exact Or.inl ⟨_, _, rfl⟩
         | exact Or.inr ⟨_, rfl⟩)

/-- The candidate loop terminates only with a success or a warning result. -/
lemma iterHalt_kind (env : Env) (g : Bool) (u : String) (res : DocResult)
    (h : iterHalt env g u = some res) :
    (∃ m p, res = .success m p) ∨ (∃ m, res = .warning m) := by
  unfold iterHalt at h
  split at h
  · rename_i r hstep
    injection h with h2
    subst h2
    exact iterStep_halt_kind env g u _ hstep
  · exact Option.noConfusion h

/-- First-hit behaviour of the candidate loop: with every candidate before
`e` falling through and `e` terminating with `res`, the loop returns `res`
and the probe log covers exactly the candidates up to and including `e`. -/
lemma checkLoop_hit (env : Env) (g : Bool) (url : String) (e : String)
    (res : DocResult) :
    ∀ (pre post log errors : List String),
    (∀ u ∈ pre, iterHalt env g (url ++ "/" ++ u) = none) →
    iterHalt env g (url ++ "/" ++ e) = some res →
    checkLoop env g url (pre ++ e :: post) log errors =
      (log ++ (pre ++ [e]).flatMap (fun u => (isJsonRestApi env (url ++ "/" ++ u)).1),
       res) := by
  intro pre
  induction pre with
  | nil =>
      intro post log errors hpre hhit
      unfold iterHalt at hhit
      rw [List.nil_append]
      unfold checkLoop
      split
      · rename_i r hstep
        rw [hstep] at hhit
        injection hhit with h2
        subst h2
        simp
      · rename_i hstep
        rw [hstep] at hhit
        exact Option.noConfusion hhit
      · rename_i m hstep
        rw [hstep] at hhit
        exact Option.noConfusion hhit
  | cons u pre2 ih =>
      intro post log errors hpre hhit
      have hu : iterHalt env g (url ++ "/" ++ u) = none := hpre u (.head _)
      have hpre2 : ∀ v ∈ pre2, iterHalt env g (url ++ "/" ++ v) = none :=
        fun v hv => hpre v (.tail _ hv)
      rw [List.cons_append]
      unfold checkLoop
      unfold iterHalt at hu
      split
      · rename_i r hstep
        rw [hstep] at hu
        exact Option.noConfusion hu
      · rename_i hstep
        rw [ih post _ errors hpre2 hhit]
        simp
      · rename_i m hstep
        rw [ih post _ (setAdd errors m) hpre2 hhit]
        simp

/-- C3: with no explicit endpoint, the locator consults the fixed candidate
list `openapi.json, swagger.json, docs, api-docs, swagger, redoc, api/docs,
swagger/ui, ""` strictly in order; if every candidate before `e` falls
through and `e`'s classification terminates the loop, the returned result is
`e`'s (necessarily a success or a warning) and the URLs requested are
exactly those of the candidates up to and including `e` — no later
candidate is probed. -/
theorem c3_theorem (env : Env) (uri : String) (pre : List String) (e : String)
    (post : List String) (res : DocResult)
    (hsplit : ["openapi.json", "swagger.json", "docs", "api-docs", "swagger",
               "redoc", "api/docs", "swagger/ui", ""] = pre ++ e :: post)
    (hpre : ∀ u ∈ pre, iterHalt env false (fullUrlOf uri u) = none)
    (hhit : iterHalt env false (fullUrlOf uri e) = some res) :
    checkSwaggerRest env uri none =
      ((pre ++ [e]).flatMap (fun u => (isJsonRestApi env (fullUrlOf uri u)).1), res)
    ∧ ((∃ m p, res = .success m p) ∨ (∃ m, res = .warning m)) := by
  constructor
  · have hd : defaultEndpoints = pre ++ e :: post := hsplit
    unfold checkSwaggerRest
    rw [hd]
    have := checkLoop_hit env false (rstripSlash uri) e res pre post [] [] hpre hhit
    simpa using this
  · exact iterHalt_kind env false (fullUrlOf uri e) res hhit

/-- C3 (witness): against `env3` the first two candidates fall through and
the third (`docs`) yields the success result; exactly three URLs are
probed, in candidate order. -/
theorem c3_witness :
    checkSwaggerRest env3 "http://b" none =
      (["http://b/openapi.json", "http://b/swagger.json", "http://b/docs"],
       .success (foundMsg "http://b/docs") docsJson) :=
  (c3_theorem env3 "http://b" ["openapi.json", "swagger.json"] "docs"
    ["api-docs", "swagger", "redoc", "api/docs", "swagger/ui", ""]
    (.success (foundMsg "http://b/docs") docsJson) rfl
    (by
      intro u hu
      cases hu with
      | head => rfl
      | tail _ hu2 =>
        cases hu2 with
        | head => rfl
        | tail _ hu3 => cases hu3)
    rfl).1

/-! ## Claim C4 -/

lemma mem_setAdd (s : List String) (x y : String) :
    y ∈ setAdd s x ↔ y ∈ s ∨ y = x := by
  unfold setAdd
  split
  · rename_i hx
    constructor
    · exact Or.inl
    · rintro (h | rfl)
      · exact h
      · exact hx
  · simp

lemma mem_foldl_setAdd (m : String → String) :
    ∀ (l : List String) (init : List String) (x : String),
    x ∈ l.foldl (fun a e => setAdd a (m e)) init ↔ x ∈ init ∨ ∃ e ∈ l, x = m e := by
  intro l
  induction l with
  | nil => simp
  | cons e rest ih =>
      intro init x
      rw [List.foldl_cons, ih, mem_setAdd]
      constructor
      · rintro ((h | h) | ⟨f, hf, hx⟩)
        · exact Or.inl h
        · exact Or.inr ⟨e, List.mem_cons_self e rest, h⟩
        · exact Or.inr ⟨f, List.mem_cons_of_mem e hf, hx⟩
      · rintro (h | ⟨f, hf, hx⟩)
        · exact Or.inl (Or.inl h)
        · cases hf with
          | head => exact Or.inl (Or.inr hx)
          | tail _ hf2 => exact Or.inr ⟨f, hf2, hx⟩

/-- The classifier on a URL with the `http` prefix whose GET yields a
non-2xx response: not REST, response returned for diagnostics. -/
lemma isJsonRestApi_non2xx (env : Env) (u : String) (r : HttpResponse)
    (hs : (pyStartswith u "http" || pyStartswith u "https") = true)
    (henv : env (rstripSlash u) = .ok r) (hst : r.statusCode / 100 ≠ 2) :
    (isJsonRestApi env u).2 = .ok (false, some r) := by
  unfold isJsonRestApi
  rw [hs]
  simp only [Bool.not_true, Bool.false_eq_true, if_false]
  rw [henv]
  simp [hst]

/-- The classifier's scheme pre-filter, failing case. -/
lemma isJsonRestApi_noScheme (env : Env) (u : String)
    (hs : (pyStartswith u "http" || pyStartswith u "https") = false) :
    isJsonRestApi env u = ([], .ok (false, none)) := by
  unfold isJsonRestApi
  rw [hs]
  rfl

/-- Against a server answering 404 everywhere, every candidate iteration
falls through, recording the "does not seem to be a JSON REST API" message
for its full URL (NOT a formatted Client Error entry: the classifier already
reports the non-2xx response as not-REST, so the locator's Client Error
branch is never reached). -/
lemma iterStep_all404 (env : Env) (g : Bool) (fullUrl : String)
    (h404 : ∀ u, ∃ r, env u = .ok r ∧ r.statusCode = 404) :
    iterStep env g fullUrl = .next (some (notSeemMsg fullUrl)) := by
  by_cases hs : (pyStartswith fullUrl "http" || pyStartswith fullUrl "https") = true
  · obtain ⟨r, henv, hst⟩ := h404 (rstripSlash fullUrl)
    have hc := isJsonRestApi_non2xx env fullUrl r hs henv (by rw [hst]; omega)
    unfold iterStep
    rw [hc]
  · rw [Bool.not_eq_true] at hs
    have hc := isJsonRestApi_noScheme env fullUrl hs
    unfold iterStep
    rw [hc]

/-- When every iteration falls through with an error message, the loop
exhausts its candidates, probes each of them, and returns the error result
with all messages collected. -/
lemma checkLoop_allNext (env : Env) (g : Bool) (url : String) (m : String → String) :
    ∀ (endpoints log errors : List String),
    (∀ e ∈ endpoints, iterStep env g (url ++ "/" ++ e) = .next (some (m e))) →
    checkLoop env g url endpoints log errors =
      (log ++ endpoints.flatMap (fun e => (isJsonRestApi env (url ++ "/" ++ e)).1),
       .error (noDocMsg g) (endpoints.foldl (fun a e => setAdd a (m e)) errors)) := by
  intro endpoints
  induction endpoints with
  | nil =>
      intro log errors hall
      simp [checkLoop]
  | cons e rest ih =>
      intro log errors hall
      have he := hall e (.head _)
      have hrest : ∀ f ∈ rest, iterStep env g (url ++ "/" ++ f) = .next (some (m f)) :=
        fun f hf => hall f (.tail _ hf)
      unfold checkLoop
      split
      · rename_i r hstep
        rw [he] at hstep
        exact IterOutcome.noConfusion hstep
      · rename_i hstep
        rw [he] at hstep
        injection hstep with h2
        exact Option.noConfusion h2
      · rename_i msg hstep
        rw [he] at hstep
        injection hstep with h2
        injection h2 with h3
        subst h3
        rw [ih _ (setAdd errors (m e)) hrest]
        simp

/-- C4: against a base URL where every candidate returns 404, the locator
returns an error-status result whose collected error set holds, for each of
the nine candidates, exactly the message
`The URL <full_url> does not seem to be a JSON REST API` — and nothing
else; in particular no `404 Client Error: ...` entry is ever recorded,
because the classifier reports the non-2xx response as not-REST before the
locator's Client Error branch can run. -/
theorem c4_theorem (env : Env) (uri : String)
    (h404 : ∀ u, ∃ r, env u = .ok r ∧ r.statusCode = 404) :
    ∃ log errs, checkSwaggerRest env uri none = (log, .error (noDocMsg false) errs)
      ∧ (∀ e ∈ defaultEndpoints, notSeemMsg (fullUrlOf uri e) ∈ errs)
      ∧ (∀ x ∈ errs, ∃ e ∈ defaultEndpoints, x = notSeemMsg (fullUrlOf uri e)) := by
  have hall : ∀ e ∈ defaultEndpoints,
      iterStep env false (rstripSlash uri ++ "/" ++ e) =
        .next (some ((fun f => notSeemMsg (fullUrlOf uri f)) e)) :=
    fun e _ => iterStep_all404 env false (rstripSlash uri ++ "/" ++ e) h404
  have hloop := checkLoop_allNext env false (rstripSlash uri)
    (fun f => notSeemMsg (fullUrlOf uri f)) defaultEndpoints [] [] hall
  refine ⟨defaultEndpoints.flatMap (fun e => (isJsonRestApi env (rstripSlash uri ++ "/" ++ e)).1),
          defaultEndpoints.foldl
            (fun a e => setAdd a (notSeemMsg (fullUrlOf uri e))) [], ?_, ?_, ?_⟩
  · unfold checkSwaggerRest
    simpa using hloop
  · intro e he
    rw [mem_foldl_setAdd]
    exact Or.inr ⟨e, he, rfl⟩
  · intro x hx
    rw [mem_foldl_setAdd] at hx
    rcases hx with hx | ⟨e, he, hx⟩
    · exact absurd hx (List.not_mem_nil x)
    · exact ⟨e, he, hx⟩

/-- C4 (witness): the amended theorem at the all-404 server. -/
theorem c4_witness :
    ∃ log errs, checkSwaggerRest env404 "http://h" none = (log, .error (noDocMsg false) errs)
      ∧ (∀ e ∈ defaultEndpoints, notSeemMsg (fullUrlOf "http://h" e) ∈ errs)
      ∧ (∀ x ∈ errs, ∃ e ∈ defaultEndpoints, x = notSeemMsg (fullUrlOf "http://h" e)) :=
  c4_theorem env404 "http://h" (fun u => ⟨resp404 u, rfl, rfl⟩)

/-- The error set the locator actually collects against the all-404 server. -/
def errs404 : List String :=
  [notSeemMsg "http://h/openapi.json", notSeemMsg "http://h/swagger.json",
   notSeemMsg "http://h/docs", notSeemMsg "http://h/api-docs",
   notSeemMsg "http://h/swagger", notSeemMsg "http://h/redoc",
   notSeemMsg "http://h/api/docs", notSeemMsg "http://h/swagger/ui",
   notSeemMsg "http://h/"]

/-- C4 (counterexample): with every candidate returning 404, the collected
errors are the nine "does not seem to be a JSON REST API" strings; the
`404 Client Error: Not Found for url: ...` entry the claim predicts is NOT
among them. -/
theorem c4_counterexample :
    (checkSwaggerRest env404 "http://h" none).2 = .error (noDocMsg false) errs404
    ∧ clientErrMsg (resp404 "http://h/openapi.json") ∉ errs404 :=
  ⟨rfl, by decide⟩

/-! ## Claim C6 -/

/-- Python `d.get(key, default)` returns the default when the key is
absent. -/
lemma objGet_not_hasKey (fs : List (String × JsonVal)) (k : String) (d : JsonVal)
    (h : objHasKey fs k = false) : objGet fs k d = d := by
  induction fs with
  | nil => rfl
  | cons p rest ih =>
      obtain ⟨k2, v⟩ := p
      unfold objHasKey at h
      unfold objGet
      split at h
      · exact Bool.noConfusion h
      · rename_i hne
        rw [if_neg hne]
        exact ih h

/-- C6 (counterexample): a discovered payload that is a valid JSON mapping
WITHOUT a `paths` key does not produce the "documented but no paths" error:
the analysis proceeds with an empty paths mapping and returns a
success-status report. -/
theorem c6_counterexample :
    (analyzeApiMaturity env6 loads0 "http://x").2 =
      .ok (.report "success" (noHttpsMsg "http://x") ⟨[postOnlyMsg]⟩)
    ∧ (analyzeApiMaturity env6 loads0 "http://x").2 ≠ .ok (.noPaths noPathsMsg) :=
  ⟨rfl, fun h => AnalyzeResult.noConfusion (Except.ok.inj h)⟩

/-- C6 (amended): the "documented but no paths were found" error fires only
when the payload is not a mapping (the caught `AttributeError`); when the
locator succeeds with a mapping payload that merely LACKS the `paths` key,
`response.get('paths', {})` returns the empty mapping and the analysis
returns a success-status report whose feedback is the lone POST-only
aggregate message. -/
theorem c6_theorem (env : Env) (jsonLoads : String → Option JsonVal) (uri : String)
    (log1 : List String) (m : String) (fields : List (String × JsonVal))
    (log2 : List String) (hr : HttpsResult)
    (hdoc : checkSwaggerRest env uri none = (log1, .success m (.obj fields)))
    (hnp : objHasKey fields "paths" = false)
    (hhttps : supportsHttps env uri = (log2, .ok hr)) :
    analyzeApiMaturity env jsonLoads uri =
      (log1 ++ log2, .ok (.report "success" hr.message ⟨[postOnlyMsg]⟩)) := by
  unfold analyzeApiMaturity
  rw [hdoc]
  simp only [analyzeStage2, analyzeStage3]
  rw [objGet_not_hasKey fields "paths" _ hnp]
  unfold analyzeStage4
  have hv : verifyMaturityPaths (.obj []) = .ok ⟨[postOnlyMsg]⟩ := rfl
  rw [hv, hhttps]
  rfl

/-- C6 (witness): the amended theorem at the server whose documentation
payload is the one-field mapping binding `openapi` to `3.0` — a valid JSON
mapping with no `paths` key. -/
theorem c6_witness :
    analyzeApiMaturity env6 loads0 "http://x" =
      (["http://x/openapi.json", "https://x"],
       .ok (.report "success" (noHttpsMsg "http://x") ⟨[postOnlyMsg]⟩)) :=
  c6_theorem env6 loads0 "http://x" ["http://x/openapi.json"]
    (foundMsg "http://x/openapi.json") [("openapi", .str "3.0")] ["https://x"]
    (.error (noHttpsMsg "http://x") [httpsRequestErrMsg "https://x" .connectError])
    rfl rfl rfl

end Apilyzer
